import Mathlib

/-!
Shallow embedding of the device-trust login protocol of the Alfred web
application: the rate-limit classifier and Portuguese duration formatter
(shared/utils/errors.ts), the device identity store (shared/utils/device.ts),
the login security orchestrator (LoginPage.handleLogin), the device
verification poller (DeviceVerificationPage) and the confirmation link
handler (ConfirmDevicePage).  JavaScript numbers are modelled as rationals
extended with the three non-finite values; browser-supplied observations
(random UUIDs, navigator descriptors, JSON.parse) are explicit inputs.
-/

/-- A JavaScript number: NaN, the two infinities, or a finite value
(modelled as a rational). -/
inductive JSNum where
  | nan
  | posInf
  | negInf
  | finite (q : ℚ)
deriving DecidableEq

/-- `Number.isFinite`. -/
def JSNum.isFinite : JSNum → Bool
  | JSNum.finite _ => true
  | _ => false

/-- JavaScript `Math.round` on a finite number: round to nearest, ties toward
positive infinity, i.e. `⌊q + 1/2⌋`.  Written over the numerator and
denominator with integer flooring division so that it evaluates by kernel
reduction; `jsRound_eq_floor` below proves it equal to `⌊q + 1/2⌋`. -/
def jsRound (q : ℚ) : ℤ := (2 * q.num + q.den) / (2 * (q.den : ℤ))

/-- JavaScript `String.prototype.trim`, written over the character list so
that it evaluates by kernel reduction. -/
def jsTrim (s : String) : String :=
  String.mk (((s.toList.dropWhile Char.isWhitespace).reverse.dropWhile Char.isWhitespace).reverse)

/-- JavaScript `Number.parseInt(s, 10)`: skip leading whitespace, read an
optional sign and then the maximal run of leading decimal digits, ignoring
any trailing characters; `none` models a NaN result (no digits found). -/
def parseIntJS (s : String) : Option ℤ :=
  let chars := s.toList.dropWhile Char.isWhitespace
  let signAndRest : ℤ × List Char :=
    match chars with
    | '-' :: cs => (-1, cs)
    | '+' :: cs => (1, cs)
    | cs => (1, cs)
  let digits := signAndRest.2.takeWhile Char.isDigit
  if digits.isEmpty then none
  else some (signAndRest.1 * (digits.foldl (fun acc c => acc * 10 + (c.toNat - '0'.toNat)) (0 : ℕ) : ℕ))

/-- A JavaScript value as observed after `JSON.parse` or carried in an
`unknown` field. -/
inductive JSValue where
  | null
  | jsBool (b : Bool)
  | num (n : JSNum)
  | str (s : String)
  | arr (elems : List JSValue)
  | obj (fields : List (String × JSValue))

/-- Truthy values of `typeof v === "object"`: arrays and plain objects
(JavaScript `null` also has typeof object but is falsy, which is how the
source's combined `!source || typeof source !== "object"` guard treats it). -/
def JSValue.isObjectLike : JSValue → Bool
  | JSValue.obj _ => true
  | JSValue.arr _ => true
  | _ => false

/-- Property read `v[k]`: `none` models `undefined`. -/
def JSValue.getField : JSValue → String → Option JSValue
  | JSValue.obj fields, k => (fields.find? (fun p => p.1 = k)).map Prod.snd
  | _, _ => none

/-- JavaScript strict equality of a possibly-absent value against a string
literal, as in `role === "admin"`. -/
def jsEqStr : Option JSValue → String → Bool
  | some (JSValue.str s), t => s = t
  | _, _ => false

/-- Nullish coalescing `a ?? b` over possibly-absent values: `none` models
`undefined` and `JSValue.null` models `null`; both fall through. -/
def jsCoalesce (a b : Option JSValue) : Option JSValue :=
  match a with
  | none => b
  | some JSValue.null => b
  | some v => some v

/-- The ambient JavaScript environment of the classifier: the `JSON.parse`
builtin, modelled as a partial function (`none` = the parse throws). -/
structure JSEnv where
  jsonParse : String → Option JSValue

/-- The fetch `Response` object as the classifier observes it: the
`Retry-After` header read via `headers.get` (`none` = header absent) and the
result of `clone().json()` (`none` = the body is not valid JSON and the
parse rejects). -/
structure FetchResponse where
  retryAfterHeader : Option String
  jsonBody : Option JSValue

/-- `FunctionsErrorLike`: the supabase functions error shape inspected by
`toRateLimitError`.  Optional fields are `none` when absent. -/
structure FunctionsErrorLike where
  status : Option JSNum
  message : Option String
  name : String
  response : Option FetchResponse
  details : Option JSValue

def DEFAULT_RATE_LIMIT_MESSAGE : String := "Detectamos muitas requisições em sequência."

/-- `RateLimitError` instances: `name` is always `"RateLimitError"` and
`retryAfterSeconds` is whatever the constructor stored. -/
structure RateLimitError where
  name : String
  message : String
  retryAfterSeconds : Option JSNum
deriving DecidableEq

/-- The `RateLimitError` constructor: a finite numeric `retryAfterSeconds`
is stored as `Math.max(0, Math.round(x))`; anything else becomes
`undefined`. -/
def mkRateLimitError (message : String) (retryAfterSeconds : Option JSNum) : RateLimitError :=
  { name := "RateLimitError"
    message := message
    retryAfterSeconds :=
      match retryAfterSeconds with
      | some (JSNum.finite q) => some (JSNum.finite ((max 0 (jsRound q) : ℤ) : ℚ))
      | _ => none }

/-- `extractRetryAfterFromObject`: a finite numeric `retryAfterSeconds`
field of a truthy object-typed value. -/
def extractRetryAfterFromObject (source : Option JSValue) : Option ℚ :=
  match source with
  | none => none
  | some v =>
    if v.isObjectLike then
      match v.getField "retryAfterSeconds" with
      | some (JSValue.num (JSNum.finite q)) => some q
      | _ => none
    else none

/-- `extractRetryAfterFromString`: JSON-decode the string and read the field
from the decoded object; parse failures yield `undefined`. -/
def extractRetryAfterFromString (env : JSEnv) (value : String) : Option ℚ :=
  if value = "" ∨ jsTrim value = "" then none
  else
    match env.jsonParse value with
    | some parsed => extractRetryAfterFromObject (some parsed)
    | none => none

/-- `extractRetryAfterHeader`: the `Retry-After` header parsed with
`Number.parseInt(·, 10)`; empty or unparseable headers yield `undefined`. -/
def extractRetryAfterHeader (response : Option FetchResponse) : Option ℚ :=
  match response with
  | none => none
  | some r =>
    match r.retryAfterHeader with
    | none => none
    | some header =>
      if header = "" then none
      else
        match parseIntJS header with
        | some z => some (z : ℚ)
        | none => none

/-- The retry-after candidate contributed by the parsed JSON response body
(the `retryAfterSeconds` field of a truthy object payload). -/
def responseBodyRetryAfter (response : Option FetchResponse) : Option ℚ :=
  match response with
  | none => none
  | some r =>
    match r.jsonBody with
    | none => none
    | some payload =>
      if payload.isObjectLike then extractRetryAfterFromObject (some payload) else none

/-- The message override contributed by the parsed JSON response body: a
non-blank string `error` field, trimmed. -/
def responseBodyMessage (response : Option FetchResponse) : Option String :=
  match response with
  | none => none
  | some r =>
    match r.jsonBody with
    | none => none
    | some payload =>
      if payload.isObjectLike then
        match payload.getField "error" with
        | some (JSValue.str s) => if jsTrim s = "" then none else some (jsTrim s)
        | _ => none
      else none

/-- The retry-after candidate contributed by the `details` payload: a string
is JSON-decoded first, anything else is read as an object directly. -/
def detailsRetryAfter (env : JSEnv) (details : Option JSValue) : Option ℚ :=
  match details with
  | some (JSValue.str s) => extractRetryAfterFromString env s
  | d => extractRetryAfterFromObject d

/-- The message carried by a classified 429: the trimmed transport message
(falling back to the fixed default when absent or blank), overridden by a
non-blank `error` string field of the parsed JSON body. -/
def classifiedMessage (err : FunctionsErrorLike) : String :=
  let baseMsg := jsTrim (err.message.getD DEFAULT_RATE_LIMIT_MESSAGE)
  let msg0 := if baseMsg = "" then DEFAULT_RATE_LIMIT_MESSAGE else baseMsg
  (responseBodyMessage err.response).getD msg0

/-- `toRateLimitError` (the classifier): `null` for anything that is not an
HTTP 429 error; otherwise a `RateLimitError` whose message prefers the JSON
body's `error` field over the transport message over the fixed default, and
whose retry-after duration is taken from the first matching source among the
header, the JSON body and the `details` payload, exactly as the source
sequences them (`retryAfterSeconds ?? next source` after each step). -/
def toRateLimitError (env : JSEnv) (error : Option FunctionsErrorLike) : Option RateLimitError :=
  match error with
  | none => none
  | some err =>
    if err.status = some (JSNum.finite 429) then
      let retry1 :=
        match extractRetryAfterHeader err.response with
        | some v => some v
        | none => responseBodyRetryAfter err.response
      let retry2 :=
        match retry1 with
        | some v => some v
        | none => detailsRetryAfter env err.details
      some (mkRateLimitError (classifiedMessage err) (retry2.map JSNum.finite))
    else none

/-- Modelled from the spec: the extraction order for the retry-after
duration, first match wins — (1) the `Retry-After` header, (2) the
`retryAfterSeconds` field of the parsed JSON body, (3) the same field inside
the `details` payload. -/
def retryAfterSources (env : JSEnv) (err : FunctionsErrorLike) : Option ℚ :=
  match extractRetryAfterHeader err.response with
  | some v => some v
  | none =>
    match responseBodyRetryAfter err.response with
    | some v => some v
    | none => detailsRetryAfter env err.details

/-- `formatDurationPtBr`: `null` for absent, non-finite or non-positive
durations; otherwise the rounded duration (at least 1) rendered as seconds
below one minute, and as minutes and remaining seconds otherwise, joined
with " e " and omitting zero parts.  The non-positivity test `q.num ≤ 0`
is the numerator-sign form of `q ≤ 0`. -/
def formatDurationPtBr (seconds : Option JSNum) : Option String :=
  match seconds with
  | none => none
  | some JSNum.nan => none
  | some JSNum.posInf => none
  | some JSNum.negInf => none
  | some (JSNum.finite q) =>
    if q.num ≤ 0 then none
    else
      let rounded : ℤ := max 1 (jsRound q)
      if rounded < 60 then
        some (toString rounded ++ " segundo" ++ (if rounded = 1 then "" else "s"))
      else
        let minutes : ℤ := rounded / 60
        let remainingSeconds : ℤ := rounded % 60
        let parts : List String :=
          (if 0 < minutes then [toString minutes ++ " minuto" ++ (if minutes = 1 then "" else "s")] else [])
            ++ (if 0 < remainingSeconds then [toString remainingSeconds ++ " segundo" ++ (if remainingSeconds = 1 then "" else "s")] else [])
        some (String.intercalate " e " parts)

/-- `formatRateLimitError`: prefix is the signal's message when it is
non-empty and differs from the fixed default, otherwise the caller's base
message; the suffix renders the wait duration when one is available. -/
def formatRateLimitError (error : RateLimitError) (baseMessage : String) : String :=
  let waitTime := formatDurationPtBr error.retryAfterSeconds
  let pre :=
    if error.message ≠ "" ∧ error.message ≠ DEFAULT_RATE_LIMIT_MESSAGE then error.message
    else baseMessage
  match waitTime with
  | none => pre ++ " Tente novamente em instantes."
  | some w => pre ++ " Tente novamente em " ++ w ++ "."

def DEVICE_ID_STORAGE_KEY : String := "alfred_device_id_v1"

def DEVICE_METADATA_STORAGE_KEY : String := "alfred_device_metadata"

/-- The browser's `window.localStorage`, as a key-value association list. -/
structure LocalStorage where
  entries : List (String × String)
deriving DecidableEq

/-- `localStorage.getItem`: `none` models `null`. -/
def LocalStorage.getItem (ls : LocalStorage) (k : String) : Option String :=
  (ls.entries.find? (fun p => p.1 = k)).map Prod.snd

/-- `localStorage.setItem`. -/
def LocalStorage.setItem (ls : LocalStorage) (k : String) (v : String) : LocalStorage :=
  { entries := (k, v) :: ls.entries.filter (fun p => p.1 ≠ k) }

/-- The browser-environment observations the device identity store reads:
whether `window`/`localStorage` exist, the identifier `generateDeviceId()`
would produce on this call (`crypto.randomUUID()` or the time+random
fallback), the descriptor string `resolveDeviceName()` assembles from
`navigator`/`screen` (display-only, unread by the protocol), the navigator
locale, timezone and screen label, and the `JSON.stringify` rendering used
for the opportunistic metadata cache. -/
structure DeviceEnv where
  isBrowser : Bool
  generated : String
  resolvedDeviceName : String
  userAgent : Option String
  locale : Option String
  timezone : Option String
  screenLabel : Option String
  metadataJson : String
deriving DecidableEq

/-- `getDeviceId`: the stored identifier, or `null` when storage is
unavailable, the key is absent, or the stored value is empty/blank
(`existing && existing.trim() !== ""`). -/
def getDeviceId (env : DeviceEnv) (ls : LocalStorage) : Option String :=
  if env.isBrowser then
    match ls.getItem DEVICE_ID_STORAGE_KEY with
    | some existing => if existing ≠ "" ∧ jsTrim existing ≠ "" then some existing else none
    | none => none
  else none

/-- `ensureDeviceId`: return the existing identifier if `getDeviceId`
finds one, otherwise generate, persist and return a fresh one; `null` only
when storage is unusable.  Returns the value together with the storage
after the call. -/
def ensureDeviceId (env : DeviceEnv) (ls : LocalStorage) : Option String × LocalStorage :=
  if env.isBrowser then
    match getDeviceId env ls with
    | some current => (some current, ls)
    | none => (some env.generated, ls.setItem DEVICE_ID_STORAGE_KEY env.generated)
  else (none, ls)

/-- `DeviceMetadata`. -/
structure DeviceMetadata where
  deviceId : Option String
  deviceName : String
  userAgent : Option String
  locale : Option String
  timezone : Option String
  screen : Option String
deriving DecidableEq

/-- `collectDeviceMetadata`: calls `ensureDeviceId`, assembles the metadata
from the browser observations (or the degenerate non-browser shape), and
opportunistically caches the JSON rendering.  Returns the metadata together
with the storage after the call. -/
def collectDeviceMetadata (env : DeviceEnv) (ls : LocalStorage) : DeviceMetadata × LocalStorage :=
  let idPair := ensureDeviceId env ls
  if env.isBrowser then
    ({ deviceId := idPair.1
       deviceName := env.resolvedDeviceName
       userAgent := env.userAgent
       locale := env.locale
       timezone := env.timezone
       screen := env.screenLabel },
     (idPair.2).setItem DEVICE_METADATA_STORAGE_KEY env.metadataJson)
  else
    ({ deviceId := idPair.1
       deviceName := "Dispositivo"
       userAgent := none
       locale := none
       timezone := none
       screen := none },
     idPair.2)

/-- The authenticated identity as `handleLogin` reads it: the `role` claims
of `user_metadata` and `app_metadata` (`none` = the claim, or the whole
metadata record, is absent). -/
structure AuthUser where
  userMetadataRole : Option JSValue
  appMetadataRole : Option JSValue

/-- Outcome of `supabase.auth.signInWithPassword`: failure covers both a
returned error (carrying its message) and a missing `data.user`. -/
inductive AuthResult where
  | failure (errMessage : Option String)
  | success (user : AuthUser)

/-- `RegisterLoginResponse` as the orchestrator reads it (the `device`
payload is never inspected by `handleLogin`). -/
structure RegisterLoginResponse where
  status : String
  requiresConfirmation : Bool
deriving DecidableEq

/-- The `{ data, error }` shape returned by `invokeFunction`. -/
structure FunctionsResult (α : Type) where
  data : Option α
  error : Option FunctionsErrorLike

/-- Outcome of an awaited JavaScript call: either it returns a value, or it
rejects (`exn`), carrying the thrown error's message when the thrown value
is an `Error`. -/
inductive JSOutcome (α : Type) where
  | ret (value : α)
  | exn (errMessage : Option String)

/-- The external collaborators of one `handleLogin` run: the JSON builtin,
the browser device environment, the password-authentication outcome and the
outcome of the awaited `registerLoginEvent` call. -/
structure LoginEnv where
  jsEnv : JSEnv
  deviceEnv : DeviceEnv
  authResult : AuthResult
  registerOutcome : JSOutcome (FunctionsResult RegisterLoginResponse)

/-- One `navigate(path, {replace, state})` call, with the navigation-state
payload fields the login flow passes. -/
structure NavEvent where
  path : String
  replace : Bool
  stateNextPath : Option String
  stateMessage : Option String
  stateDeviceId : Option String
deriving DecidableEq

/-- Observable trace of one `handleLogin` run: the final error message, and
whether `supabase.auth.signOut()` was awaited, whether the
`registerLoginEvent` invocation was dispatched, and the navigations
performed. -/
structure LoginTrace where
  errorMsg : String
  signedOut : Bool
  registerCalled : Bool
  navigations : List NavEvent
deriving DecidableEq

/-- The role claim read once from the authenticated identity:
`user_metadata.role ?? app_metadata.role`. -/
def loginRole (user : AuthUser) : Option JSValue :=
  jsCoalesce user.userMetadataRole user.appMetadataRole

/-- The role-dependent destination: `/admin` for the `"admin"` claim,
`/dashboard` otherwise. -/
def loginDestination (user : AuthUser) : String :=
  if jsEqStr (loginRole user) "admin" then "/admin" else "/dashboard"

/-- `LoginPage.handleLogin` after the form submit: authenticate, collect the
device metadata, report the login, decide.  The `catch` handler surfaces the
thrown message and the `finally` clears the loading flag; note that the
`catch` path does not sign the session out. -/
def handleLogin (env : LoginEnv) (ls : LocalStorage) : LoginTrace :=
  match env.authResult with
  | AuthResult.failure errMessage =>
    { errorMsg := errMessage.getD "Não foi possível realizar o login"
      signedOut := false
      registerCalled := false
      navigations := [] }
  | AuthResult.success user =>
    let destination := loginDestination user
    match (collectDeviceMetadata env.deviceEnv ls).1.deviceId with
    | none =>
      { errorMsg := "Não conseguimos identificar este dispositivo. Verifique as permissões do navegador e tente novamente."
        signedOut := true
        registerCalled := false
        navigations := [] }
    | some deviceId =>
      match env.registerOutcome with
      | JSOutcome.exn m =>
        { errorMsg := m.getD "Erro inesperado ao entrar"
          signedOut := false
          registerCalled := true
          navigations := [] }
      | JSOutcome.ret result =>
        match result.error with
        | some securityError =>
          { errorMsg :=
              match toRateLimitError env.jsEnv (some securityError) with
              | some rateLimitError =>
                formatRateLimitError rateLimitError "Muitas tentativas de login em sequência."
              | none => securityError.message.getD "Não foi possível registrar o novo login."
            signedOut := true
            registerCalled := true
            navigations := [] }
        | none =>
          match result.data with
          | none =>
            { errorMsg := "Resposta inesperada ao registrar o login."
              signedOut := true
              registerCalled := true
              navigations := [] }
          | some securityData =>
            if securityData.status ≠ "approved" ∨ securityData.requiresConfirmation then
              { errorMsg := ""
                signedOut := false
                registerCalled := true
                navigations := [{ path := "/device-verification"
                                  replace := true
                                  stateNextPath := some destination
                                  stateMessage := some "Precisamos confirmar este dispositivo antes de liberar o acesso."
                                  stateDeviceId := some deviceId }] }
            else
              { errorMsg := ""
                signedOut := false
                registerCalled := true
                navigations := [{ path := destination
                                  replace := true
                                  stateNextPath := none
                                  stateMessage := none
                                  stateDeviceId := none }] }

def POLL_INTERVAL_MS : ℤ := 5000

/-- `DeviceStatusResponse` as the poller reads it (the `device` payload is
never inspected). -/
structure DeviceStatusResponse where
  status : String
  requiresConfirmation : Bool
deriving DecidableEq

/-- A `setTimeout`-scheduled navigation: delay, target path, and whether
history is replaced. -/
structure ScheduledNav where
  delayMs : ℤ
  path : String
  replace : Bool
deriving DecidableEq

/-- The poller's component state: the displayed status, error and info
messages, the poll interval handle (`some period` while registered), the
delayed navigations scheduled so far, and the resend-button loading flag. -/
structure PollerState where
  status : String
  errorMsg : Option String
  info : String
  pollTimer : Option ℤ
  scheduledNavs : List ScheduledNav
  resendLoading : Bool
deriving DecidableEq

/-- Outcome of one awaited `invokeFunction "checkDeviceStatus"` call. -/
inductive CheckOutcome where
  | result (data : Option DeviceStatusResponse) (fnError : Option FunctionsErrorLike)
  | exn (errMessage : Option String)

/-- `checkStatus`: ignore the call when no device id is available; classify
a returned error (rate limits only update the error message); an approved
response clears the error, stops the interval and schedules the delayed
navigation to `nextPath`; an unregistered response stops the interval with a
terminal error; any other status only updates the displayed status. -/
def checkStatusStep (env : JSEnv) (deviceId : Option String) (nextPath : String)
    (outcome : CheckOutcome) (s : PollerState) : PollerState :=
  match deviceId with
  | none => s
  | some _ =>
    match outcome with
    | CheckOutcome.exn m =>
      { s with errorMsg := some (m.getD "Erro inesperado ao verificar o dispositivo.") }
    | CheckOutcome.result data fnError =>
      match fnError with
      | some e =>
        match toRateLimitError env (some e) with
        | some rateLimitError =>
          { s with errorMsg := some (formatRateLimitError rateLimitError "Muitas verificações em sequência.") }
        | none =>
          { s with errorMsg := some (e.message.getD "Não foi possível verificar o dispositivo.") }
      | none =>
        match data with
        | none => { s with errorMsg := some "Resposta vazia ao verificar o dispositivo." }
        | some d =>
          if d.status = "approved" then
            { s with status := d.status
                     errorMsg := none
                     info := "Dispositivo confirmado. Redirecionando..."
                     pollTimer := none
                     scheduledNavs := s.scheduledNavs ++ [{ delayMs := 1500, path := nextPath, replace := true }] }
          else if d.status = "unregistered" then
            { s with status := d.status
                     errorMsg := some "Não encontramos este dispositivo. Faça login novamente para solicitar uma nova verificação."
                     pollTimer := none }
          else
            { s with status := d.status }

/-- `handleResend`: same call with the resend flag; an already-approved
response short-circuits to the approved transition, any other success shape
only updates the info message; the `finally` clears the loading flag. -/
def handleResendStep (env : JSEnv) (deviceId : Option String) (nextPath : String)
    (outcome : CheckOutcome) (s : PollerState) : PollerState :=
  match deviceId with
  | none => s
  | some _ =>
    let s0 := { s with resendLoading := true, errorMsg := none }
    let s1 :=
      match outcome with
      | CheckOutcome.exn m =>
        { s0 with errorMsg := some (m.getD "Erro inesperado ao reenviar.") }
      | CheckOutcome.result data fnError =>
        match fnError with
        | some e =>
          match toRateLimitError env (some e) with
          | some rateLimitError =>
            { s0 with errorMsg := some (formatRateLimitError rateLimitError "Aguarde um instante antes de reenviar.") }
          | none =>
            { s0 with errorMsg := some (e.message.getD "Não foi possível reenviar.") }
        | none =>
          if (data.map DeviceStatusResponse.status) = some "approved" then
            { s0 with status := "approved"
                      info := "Dispositivo confirmado. Redirecionando..."
                      pollTimer := none
                      scheduledNavs := s0.scheduledNavs ++ [({ delayMs := 1500, path := nextPath, replace := true } : ScheduledNav)] }
          else
            { s0 with info := "Um novo e-mail de confirmação foi enviado." }
    { s1 with resendLoading := false }

/-- The recorded destination: `state.nextPath ?? "/dashboard"`. -/
def resolveNextPath (stateNextPath : Option String) : String :=
  stateNextPath.getD "/dashboard"

/-- The poll effect on mount: with no device id, only an error message is
shown and no polling starts; otherwise the immediate check is dispatched and
the interval is registered at `POLL_INTERVAL_MS`. -/
def pollEffectMount (deviceId : Option String) (s : PollerState) : PollerState :=
  match deviceId with
  | none =>
    { s with errorMsg := some "Não conseguimos identificar este dispositivo. Verifique as permissões do navegador e tente novamente." }
  | some _ => { s with pollTimer := some POLL_INTERVAL_MS }

/-- The poll effect's cleanup (`clearPollTimer`): the interval is cancelled. -/
def pollEffectCleanup (s : PollerState) : PollerState := { s with pollTimer := none }

/-- One firing opportunity of the poll interval: a check runs only while the
interval is registered. -/
def pollTick (env : JSEnv) (deviceId : Option String) (nextPath : String)
    (outcome : CheckOutcome) (s : PollerState) : PollerState :=
  match s.pollTimer with
  | none => s
  | some _ => checkStatusStep env deviceId nextPath outcome s

/-- The poller together with its lifecycle: whether the component is still
mounted. -/
structure PollerWorld where
  state : PollerState
  mounted : Bool
deriving DecidableEq

/-- Teardown: the effect cleanup cancels the interval; nothing else in the
source records liveness. -/
def pollerUnmount (w : PollerWorld) : PollerWorld :=
  { state := pollEffectCleanup w.state, mounted := false }

/-- An in-flight `checkStatus` call resolving: the continuation after the
await in the source applies its state transition unconditionally — no
liveness flag is consulted in `DeviceVerificationPage` — so the transition
applies whether or not the component is still mounted. -/
def pollerResolveInFlight (env : JSEnv) (deviceId : Option String) (nextPath : String)
    (outcome : CheckOutcome) (w : PollerWorld) : PollerWorld :=
  { w with state := checkStatusStep env deviceId nextPath outcome w.state }

def SUCCESS_REDIRECT_DELAY : ℤ := 4000

/-- `ConfirmResponse`: the optional `status` field. -/
structure ConfirmResponse where
  status : Option String
deriving DecidableEq

/-- The confirmation page's component state. -/
structure ConfirmState where
  status : String
  message : String
  scheduledNavs : List ScheduledNav
deriving DecidableEq

/-- Outcome of the awaited `invokeFunction "confirmDevice"` call. -/
inductive ConfirmOutcome where
  | result (data : Option ConfirmResponse) (fnError : Option FunctionsErrorLike)
  | exn (errMessage : Option String)

def confirmInitialState : ConfirmState :=
  { status := "loading", message := "Confirmando dispositivo...", scheduledNavs := [] }

/-- The confirmation effect on load: a missing or blank token produces the
terminal error state and no network call (the boolean reports whether the
call was dispatched). -/
def confirmMount (tokenParam : Option String) (s : ConfirmState) : ConfirmState × Bool :=
  match tokenParam.map jsTrim with
  | none =>
    ({ s with status := "error"
              message := "Token ausente ou inválido. Solicite um novo e-mail de verificação." }, false)
  | some token =>
    if token = "" then
      ({ s with status := "error"
                message := "Token ausente ou inválido. Solicite um novo e-mail de verificação." }, false)
    else (s, true)

/-- The confirmation call resolving: the `cancelled` liveness flag set by the
effect cleanup is checked right after the await (and in the catch handler)
before any state mutation; an approved status schedules the delayed redirect
to the verification screen. -/
def confirmResolve (env : JSEnv) (cancelled : Bool) (outcome : ConfirmOutcome)
    (s : ConfirmState) : ConfirmState :=
  match outcome with
  | ConfirmOutcome.result data fnError =>
    if cancelled then s
    else
      match fnError with
      | some e =>
        match toRateLimitError env (some e) with
        | some rateLimitError =>
          { s with status := "error"
                   message := formatRateLimitError rateLimitError "Tente abrir este link novamente em instantes." }
        | none =>
          { s with status := "error"
                   message := e.message.getD "Não foi possível confirmar o dispositivo." }
      | none =>
        if (data.bind ConfirmResponse.status) = some "approved" then
          { s with status := "success"
                   message := "Dispositivo confirmado com sucesso. Você pode retornar ao aplicativo."
                   scheduledNavs := s.scheduledNavs ++ [{ delayMs := SUCCESS_REDIRECT_DELAY, path := "/device-verification", replace := true }] }
        else
          { s with status := "success"
                   message := "Dispositivo confirmado. Você pode fechar esta aba." }
  | ConfirmOutcome.exn m =>
    if cancelled then s
    else
      { s with status := "error"
               message := m.getD "Erro inesperado ao confirmar o dispositivo." }

/-- A JSON environment in which every parse throws; sufficient wherever the
string-decoding path is not exercised. -/
def trivialJsonEnv : JSEnv := { jsonParse := fun _ => none }

def lsEmpty : LocalStorage := { entries := [] }

def deviceEnvC9 : DeviceEnv :=
  { isBrowser := true
    generated := "generated-device-id"
    resolvedDeviceName := "Device"
    userAgent := none
    locale := none
    timezone := none
    screenLabel := none
    metadataJson := "cached-metadata-json" }

def storageC9 : LocalStorage := { entries := [(DEVICE_ID_STORAGE_KEY, "device-123")] }

def blankStorageC9 : LocalStorage := { entries := [(DEVICE_ID_STORAGE_KEY, " ")] }

def errC2w : FunctionsErrorLike :=
  { status := some (JSNum.finite 429)
    message := some "Too many requests"
    name := "FunctionsHttpError"
    response := some { retryAfterHeader := some "90", jsonBody := none }
    details := none }

def errC2neg : FunctionsErrorLike :=
  { status := some (JSNum.finite 429)
    message := some "Too many requests"
    name := "FunctionsHttpError"
    response := some { retryAfterHeader := some "-1", jsonBody := none }
    details := none }

def envC4 : LoginEnv :=
  { jsEnv := trivialJsonEnv
    deviceEnv :=
      { isBrowser := false
        generated := "dev-1"
        resolvedDeviceName := "Device"
        userAgent := none
        locale := none
        timezone := none
        screenLabel := none
        metadataJson := "cached-metadata-json" }
    authResult := AuthResult.success { userMetadataRole := none, appMetadataRole := none }
    registerOutcome := JSOutcome.ret { data := none, error := none } }

def browserEnvW : DeviceEnv :=
  { isBrowser := true
    generated := "dev-1"
    resolvedDeviceName := "Device"
    userAgent := some "UA"
    locale := some "pt-BR"
    timezone := some "America/Sao_Paulo"
    screenLabel := some "1920x1080"
    metadataJson := "cached-metadata-json" }

def userC3 : AuthUser :=
  { userMetadataRole := some (JSValue.str "admin"), appMetadataRole := none }

def envC3 : LoginEnv :=
  { jsEnv := trivialJsonEnv
    deviceEnv := browserEnvW
    authResult := AuthResult.success userC3
    registerOutcome := JSOutcome.ret
      { data := some { status := "approved", requiresConfirmation := false }, error := none } }

def userC1 : AuthUser := { userMetadataRole := none, appMetadataRole := none }

def errC1 : FunctionsErrorLike :=
  { status := some (JSNum.finite 500)
    message := some "internal error"
    name := "FunctionsHttpError"
    response := none
    details := none }

def envC1reg : LoginEnv :=
  { jsEnv := trivialJsonEnv
    deviceEnv := browserEnvW
    authResult := AuthResult.success userC1
    registerOutcome := JSOutcome.ret { data := none, error := some errC1 } }

def envC1exn : LoginEnv :=
  { jsEnv := trivialJsonEnv
    deviceEnv := browserEnvW
    authResult := AuthResult.success userC1
    registerOutcome := JSOutcome.exn (some "Falha de rede") }

def pollerStateW : PollerState :=
  { status := "pending"
    errorMsg := none
    info := "Enviamos um e-mail para confirmar este dispositivo. Abra a mensagem e finalize a verificação para continuar."
    pollTimer := some POLL_INTERVAL_MS
    scheduledNavs := []
    resendLoading := false }

def errC6 : FunctionsErrorLike :=
  { status := some (JSNum.finite 429)
    message := some "Aguarde."
    name := "FunctionsHttpError"
    response := none
    details := none }

def worldC7 : PollerWorld := { state := pollerStateW, mounted := true }

/-! ## Theorems -/

theorem jsRound_eq_floor (q : ℚ) : jsRound q = ⌊q + 1 / 2⌋ := by
  have hq : q + 1 / 2 = ((2 * q.num + (q.den : ℤ) : ℤ) : ℚ) / ((2 * q.den : ℕ) : ℚ) := by
    push_cast
    nth_rewrite 1 [← Rat.num_div_den q]
    field_simp
    ring
  rw [hq, Rat.floor_intCast_div_natCast, jsRound]
  congr 1

/-- `jsRound` really is rounding to the nearest integer: it never moves a
value by more than one half. -/
theorem jsRound_dist_le_half (q : ℚ) : |(jsRound q : ℚ) - q| ≤ 1 / 2 := by
  rw [jsRound_eq_floor]
  have h1 : (⌊q + 1 / 2⌋ : ℚ) ≤ q + 1 / 2 := Int.floor_le _
  have h2 : q + 1 / 2 < (⌊q + 1 / 2⌋ : ℚ) + 1 := Int.lt_floor_add_one _
  rw [abs_le]
  constructor <;> linarith

theorem jsRound_intCast (n : ℤ) : jsRound (n : ℚ) = n := by
  rw [jsRound_eq_floor]
  rw [show ((n : ℚ) + 1 / 2) = (1 : ℚ) / 2 + n by ring]
  rw [Int.floor_add_int]
  norm_num

theorem formatDurationPtBr_ninety : formatDurationPtBr (some (JSNum.finite 90)) = some "1 minuto e 30 segundos" := by decide

theorem formatDurationPtBr_fortyfive : formatDurationPtBr (some (JSNum.finite 45)) = some "45 segundos" := by decide

theorem formatDurationPtBr_undefined : formatDurationPtBr none = none := rfl

/-- Claim C8: `formatRateLimitError` is a pure function of the signal and
base message; a 90-second duration renders as one minute plus thirty
seconds, 45 seconds renders as a seconds-only phrase, and an undefined
duration renders the "Tente novamente em instantes." variant. -/
theorem formatRateLimit_renders :
    (∀ e b, formatRateLimitError e b = formatRateLimitError e b) ∧
    formatDurationPtBr (some (JSNum.finite 90)) = some "1 minuto e 30 segundos" ∧
    formatDurationPtBr (some (JSNum.finite 45)) = some "45 segundos" ∧
    (∀ b, formatRateLimitError (mkRateLimitError DEFAULT_RATE_LIMIT_MESSAGE none) b
        = b ++ " Tente novamente em instantes.") ∧
    formatRateLimitError (mkRateLimitError DEFAULT_RATE_LIMIT_MESSAGE (some (JSNum.finite 90)))
        DEFAULT_RATE_LIMIT_MESSAGE
      = DEFAULT_RATE_LIMIT_MESSAGE ++ " Tente novamente em 1 minuto e 30 segundos." ∧
    formatRateLimitError (mkRateLimitError DEFAULT_RATE_LIMIT_MESSAGE (some (JSNum.finite 45)))
        DEFAULT_RATE_LIMIT_MESSAGE
      = DEFAULT_RATE_LIMIT_MESSAGE ++ " Tente novamente em 45 segundos." := by
  refine ⟨fun e b => rfl, by decide, by decide, fun b => ?_, by decide, by decide⟩
  rfl

/-- Claim C10: every constructed `RateLimitError` carries either an
undefined `retryAfterSeconds` or a non-negative integer; a finite numeric
input is rounded to the nearest integer (never moving more than one half)
and clamped below at zero, so a negative input surfaces as `0` rather than
undefined, and a non-numeric or non-finite input becomes undefined. -/
theorem rateLimitRetryAfter_normalized (message : String) (r : Option JSNum) :
    ((mkRateLimitError message r).retryAfterSeconds = none ∨
      ∃ z : ℤ, 0 ≤ z ∧ (mkRateLimitError message r).retryAfterSeconds = some (JSNum.finite (z : ℚ))) ∧
    (∀ q : ℚ, r = some (JSNum.finite q) →
      (mkRateLimitError message r).retryAfterSeconds
          = some (JSNum.finite ((max 0 (jsRound q) : ℤ) : ℚ)) ∧
        |(jsRound q : ℚ) - q| ≤ 1 / 2) ∧
    (∀ q : ℚ, r = some (JSNum.finite q) → q ≤ 0 →
      (mkRateLimitError message r).retryAfterSeconds = some (JSNum.finite ((0 : ℤ) : ℚ))) ∧
    ((∀ q : ℚ, r ≠ some (JSNum.finite q)) →
      (mkRateLimitError message r).retryAfterSeconds = none) := by
  refine ⟨?_, ?_, ?_, ?_⟩
  · match r with
    | none => exact Or.inl rfl
    | some JSNum.nan => exact Or.inl rfl
    | some JSNum.posInf => exact Or.inl rfl
    | some JSNum.negInf => exact Or.inl rfl
    | some (JSNum.finite q) =>
      exact Or.inr ⟨max 0 (jsRound q), le_max_left _ _, rfl⟩
  · intro q hq
    subst hq
    exact ⟨rfl, jsRound_dist_le_half q⟩
  · intro q hq hle
    subst hq
    have hround : jsRound q ≤ 0 := by
      rw [jsRound_eq_floor]
      calc ⌊q + 1 / 2⌋ ≤ ⌊(0 : ℚ) + 1 / 2⌋ := Int.floor_le_floor (by linarith)
        _ = 0 := by norm_num
    have : max 0 (jsRound q) = 0 := max_eq_left hround
    simp only [mkRateLimitError, this]
  · intro hnot
    match r with
    | none => rfl
    | some JSNum.nan => rfl
    | some JSNum.posInf => rfl
    | some JSNum.negInf => rfl
    | some (JSNum.finite q) => exact absurd rfl (hnot q)

/-- Witness for claim C10 at the concrete fractional input 5/2: the stored
duration is the rounded value 3. -/
theorem rateLimitRetryAfter_normalized_witness :
    (mkRateLimitError "m" (some (JSNum.finite (Rat.divInt 5 2)))).retryAfterSeconds
        = some (JSNum.finite ((max 0 (jsRound (Rat.divInt 5 2)) : ℤ) : ℚ)) ∧
    (mkRateLimitError "m" (some (JSNum.finite (Rat.divInt 5 2)))).retryAfterSeconds
        = some (JSNum.finite 3) :=
  ⟨((rateLimitRetryAfter_normalized "m" (some (JSNum.finite (Rat.divInt 5 2)))).2.1
      (Rat.divInt 5 2) rfl).1,
   by decide⟩

/-- Claim C9 (amended): for every stored device identifier that is non-empty
and not whitespace-only, `ensureDeviceId` returns that value and leaves the
storage unchanged (no write occurs); a stored value that is empty or blank
is treated as absent and is regenerated. -/
theorem ensureDeviceId_stable (env : DeviceEnv) (ls : LocalStorage) (v : String)
    (hb : env.isBrowser = true)
    (hv : ls.getItem DEVICE_ID_STORAGE_KEY = some v)
    (hne : v ≠ "") (hnb : jsTrim v ≠ "") :
    ensureDeviceId env ls = (some v, ls) := by
  unfold ensureDeviceId getDeviceId
  rw [hb, hv]
  simp [hne, hnb]

/-- Witness for claim C9: with `"device-123"` stored, `ensureDeviceId`
returns it and the storage is untouched. -/
theorem ensureDeviceId_stable_witness :
    ensureDeviceId deviceEnvC9 storageC9 = (some "device-123", storageC9) :=
  ensureDeviceId_stable deviceEnvC9 storageC9 "device-123" rfl rfl (by decide) (by decide)

/-- Counterexample for claim C9 as stated: the whitespace-only value `" "`
is a prior value present in persistent storage, yet `ensureDeviceId`
discards it, generates a fresh identifier and writes it. -/
theorem ensureDeviceId_blank_regenerated :
    blankStorageC9.getItem DEVICE_ID_STORAGE_KEY = some " " ∧
    (ensureDeviceId deviceEnvC9 blankStorageC9).1 = some "generated-device-id" ∧
    (ensureDeviceId deviceEnvC9 blankStorageC9).2 ≠ blankStorageC9 := by decide

/-- Claim C2 (amended): non-429 errors always classify to `null`; for a 429
error the retry-after duration is the first match in the order header, JSON
body, `details` payload (parse failures fall through); the resulting
`retryAfterSeconds` is a non-negative value whenever some source provides a
parseable finite number — a negative parsed value is clamped to `0` by the
constructor rather than discarded — and is undefined exactly when no source
yields a parseable finite number. -/
theorem classify_retryAfter (env : JSEnv) :
    toRateLimitError env none = none ∧
    (∀ err : FunctionsErrorLike, err.status ≠ some (JSNum.finite 429) →
      toRateLimitError env (some err) = none) ∧
    (∀ err : FunctionsErrorLike, err.status = some (JSNum.finite 429) →
      toRateLimitError env (some err)
        = some (mkRateLimitError (classifiedMessage err)
            ((retryAfterSources env err).map JSNum.finite))) ∧
    (∀ err rl, toRateLimitError env (some err) = some rl →
      (rl.retryAfterSeconds = none ↔ retryAfterSources env err = none) ∧
      (∀ x, rl.retryAfterSeconds = some x → ∃ z : ℤ, 0 ≤ z ∧ x = JSNum.finite (z : ℚ))) := by
  have h429 : ∀ err : FunctionsErrorLike, err.status = some (JSNum.finite 429) →
      toRateLimitError env (some err)
        = some (mkRateLimitError (classifiedMessage err)
            ((retryAfterSources env err).map JSNum.finite)) := by
    intro err h
    simp only [toRateLimitError, retryAfterSources, if_pos h]
    cases hh : extractRetryAfterHeader err.response <;>
      cases hb : responseBodyRetryAfter err.response <;>
        simp [hh, hb]
  have hnon : ∀ err : FunctionsErrorLike, err.status ≠ some (JSNum.finite 429) →
      toRateLimitError env (some err) = none := by
    intro err h
    simp only [toRateLimitError, if_neg h]
  refine ⟨rfl, hnon, h429, ?_⟩
  intro err rl hrl
  by_cases hs : err.status = some (JSNum.finite 429)
  · rw [h429 err hs] at hrl
    cases hrl
    cases hsrc : retryAfterSources env err with
    | none =>
      exact ⟨by simp [mkRateLimitError], by simp [mkRateLimitError]⟩
    | some q =>
      constructor
      · simp [mkRateLimitError]
      · intro x hx
        simp only [mkRateLimitError, Option.map_some'] at hx
        cases hx
        exact ⟨max 0 (jsRound q), le_max_left _ _, rfl⟩
  · rw [hnon err hs] at hrl
    cases hrl

/-- Witness for claim C2: a 429 with header `Retry-After: 90` classifies to
a signal carrying 90 seconds, via the extraction-order characterization. -/
theorem classify_retryAfter_witness :
    toRateLimitError trivialJsonEnv (some errC2w)
        = some (mkRateLimitError (classifiedMessage errC2w)
            ((retryAfterSources trivialJsonEnv errC2w).map JSNum.finite)) ∧
    retryAfterSources trivialJsonEnv errC2w = some 90 ∧
    (toRateLimitError trivialJsonEnv (some errC2w)).map RateLimitError.retryAfterSeconds
        = some (some (JSNum.finite 90)) :=
  ⟨(classify_retryAfter trivialJsonEnv).2.2.1 errC2w rfl, by decide, by decide⟩

/-- Counterexample for claim C2 as stated: with `Retry-After: -1` and no
other source, none of the three sources provides a parseable non-negative
number, so the claim requires `retryAfterSeconds` to be undefined — but the
constructor clamps the negative header value to `0`. -/
theorem classify_negative_header_clamped :
    extractRetryAfterHeader errC2neg.response = some (-1) ∧
    responseBodyRetryAfter errC2neg.response = none ∧
    detailsRetryAfter trivialJsonEnv errC2neg.details = none ∧
    (toRateLimitError trivialJsonEnv (some errC2neg)).map RateLimitError.retryAfterSeconds
        = some (some (JSNum.finite 0)) := by decide

/-- Claim C4: when, after successful password authentication,
`collectDeviceMetadata` yields no device id, `handleLogin` surfaces the
"cannot identify this device" error, signs the session out, performs no
navigation and never dispatches the `registerLoginEvent` call. -/
theorem login_nullDevice_failsClosed (env : LoginEnv) (ls : LocalStorage) (user : AuthUser)
    (hauth : env.authResult = AuthResult.success user)
    (hdev : (collectDeviceMetadata env.deviceEnv ls).1.deviceId = none) :
    (handleLogin env ls).signedOut = true ∧
    (handleLogin env ls).registerCalled = false ∧
    (handleLogin env ls).errorMsg
        = "Não conseguimos identificar este dispositivo. Verifique as permissões do navegador e tente novamente." ∧
    (handleLogin env ls).navigations = [] := by
  simp [handleLogin, hauth, hdev]

/-- Witness for claim C4 at a concrete run where local storage is
unavailable, so no device id can be established. -/
theorem login_nullDevice_failsClosed_witness :
    (handleLogin envC4 lsEmpty).signedOut = true ∧
    (handleLogin envC4 lsEmpty).registerCalled = false ∧
    (handleLogin envC4 lsEmpty).errorMsg
        = "Não conseguimos identificar este dispositivo. Verifique as permissões do navegador e tente novamente." ∧
    (handleLogin envC4 lsEmpty).navigations = [] :=
  login_nullDevice_failsClosed envC4 lsEmpty
    { userMetadataRole := none, appMetadataRole := none } rfl (by decide)

/-- Claim C3: with a registration response of status `"approved"` and
`requiresConfirmation` false, `handleLogin` navigates once to the
role-dependent destination (`/admin` for the admin role claim, `/dashboard`
otherwise) and never signs the session out; with any other decision shape it
navigates once to the device-verification hand-off carrying the intended
destination and device id, never navigating directly to the tenant landing
area. -/
theorem login_decision_routing (env : LoginEnv) (ls : LocalStorage) (user : AuthUser)
    (did : String) (sd : RegisterLoginResponse)
    (hauth : env.authResult = AuthResult.success user)
    (hdev : (collectDeviceMetadata env.deviceEnv ls).1.deviceId = some did)
    (hreg : env.registerOutcome = JSOutcome.ret { data := some sd, error := none }) :
    (sd.status = "approved" ∧ sd.requiresConfirmation = false →
      (handleLogin env ls).navigations
          = [{ path := loginDestination user
               replace := true
               stateNextPath := none
               stateMessage := none
               stateDeviceId := none }] ∧
      (handleLogin env ls).signedOut = false) ∧
    (¬(sd.status = "approved" ∧ sd.requiresConfirmation = false) →
      (handleLogin env ls).navigations
          = [{ path := "/device-verification"
               replace := true
               stateNextPath := some (loginDestination user)
               stateMessage := some "Precisamos confirmar este dispositivo antes de liberar o acesso."
               stateDeviceId := some did }] ∧
      (handleLogin env ls).signedOut = false ∧
      ∀ nav ∈ (handleLogin env ls).navigations, nav.path ≠ loginDestination user) ∧
    (jsEqStr (loginRole user) "admin" = true → loginDestination user = "/admin") ∧
    (jsEqStr (loginRole user) "admin" = false → loginDestination user = "/dashboard") := by
  have hdest : loginDestination user = "/admin" ∨ loginDestination user = "/dashboard" := by
    unfold loginDestination
    by_cases h : jsEqStr (loginRole user) "admin" = true
    · exact Or.inl (by rw [if_pos h])
    · exact Or.inr (by rw [if_neg h])
  refine ⟨?_, ?_, ?_, ?_⟩
  · intro hok
    have hcond : ¬(sd.status ≠ "approved" ∨ sd.requiresConfirmation = true) := by
      push_neg
      exact ⟨hok.1, by rw [hok.2]; decide⟩
    simp only [handleLogin, hauth, hdev, hreg]
    rw [if_neg (by simpa using hcond)]
    exact ⟨rfl, rfl⟩
  · intro hnot
    have hcond : sd.status ≠ "approved" ∨ sd.requiresConfirmation = true := by
      by_contra hc
      push_neg at hc
      exact hnot ⟨hc.1, by simpa using hc.2⟩
    simp only [handleLogin, hauth, hdev, hreg]
    rw [if_pos (by simpa using hcond)]
    refine ⟨rfl, rfl, ?_⟩
    intro nav hnav
    simp only [List.mem_singleton] at hnav
    subst hnav
    show ("/device-verification" : String) ≠ loginDestination user
    cases hdest with
    | inl h => rw [h]; decide
    | inr h => rw [h]; decide
  · intro h
    unfold loginDestination
    rw [if_pos h]
  · intro h
    unfold loginDestination
    rw [if_neg (by simp [h])]

/-- Witness for claim C3 at a concrete approved run with the admin role
claim: one replacing navigation to the admin landing area, no sign-out. -/
theorem login_decision_routing_witness :
    ((handleLogin envC3 lsEmpty).navigations
        = [{ path := loginDestination userC3
             replace := true
             stateNextPath := none
             stateMessage := none
             stateDeviceId := none }] ∧
      (handleLogin envC3 lsEmpty).signedOut = false) ∧
    loginDestination userC3 = "/admin" :=
  ⟨(login_decision_routing envC3 lsEmpty userC3 "dev-1"
      { status := "approved", requiresConfirmation := false }
      rfl (by decide) rfl).1 ⟨rfl, rfl⟩,
   by decide⟩

/-- Claim C1 (amended): after successful password authentication every
explicit halting path of `handleLogin` — device id unavailable, registration
returning an error (rate-limited or not), and an empty registration response
— signs the session out before halting; but an exception thrown after
authentication is caught by the `catch` handler, which surfaces the message
and halts without signing out, leaving the session active locally. -/
theorem login_halt_signout (env : LoginEnv) (ls : LocalStorage) (user : AuthUser)
    (hauth : env.authResult = AuthResult.success user) :
    ((collectDeviceMetadata env.deviceEnv ls).1.deviceId = none →
      (handleLogin env ls).signedOut = true ∧ (handleLogin env ls).navigations = []) ∧
    (∀ did res se, (collectDeviceMetadata env.deviceEnv ls).1.deviceId = some did →
      env.registerOutcome = JSOutcome.ret res → res.error = some se →
      (handleLogin env ls).signedOut = true ∧ (handleLogin env ls).navigations = []) ∧
    (∀ did res, (collectDeviceMetadata env.deviceEnv ls).1.deviceId = some did →
      env.registerOutcome = JSOutcome.ret res → res.error = none → res.data = none →
      (handleLogin env ls).signedOut = true ∧ (handleLogin env ls).navigations = []) ∧
    (∀ did m, (collectDeviceMetadata env.deviceEnv ls).1.deviceId = some did →
      env.registerOutcome = JSOutcome.exn m →
      (handleLogin env ls).signedOut = false ∧ (handleLogin env ls).navigations = [] ∧
      (handleLogin env ls).errorMsg = m.getD "Erro inesperado ao entrar") := by
  refine ⟨?_, ?_, ?_, ?_⟩
  · intro hdev
    simp [handleLogin, hauth, hdev]
  · intro did res se hdev hreg herr
    simp [handleLogin, hauth, hdev, hreg, herr]
  · intro did res hdev hreg herr hdata
    simp [handleLogin, hauth, hdev, hreg, herr, hdata]
  · intro did m hdev hreg
    simp [handleLogin, hauth, hdev, hreg]

/-- Witness for claim C1 at a concrete run where the registration call
returns an error: the session is signed out and the flow halts. -/
theorem login_halt_signout_witness :
    (handleLogin envC1reg lsEmpty).signedOut = true ∧
    (handleLogin envC1reg lsEmpty).navigations = [] :=
  (login_halt_signout envC1reg lsEmpty userC1 rfl).2.1
    "dev-1" { data := none, error := some errC1 } errC1 (by decide) rfl rfl

/-- Counterexample for claim C1 as stated: an exception thrown by the
awaited registration call is a halting path after successful authentication
(no navigation occurs, the thrown message is surfaced), yet the `catch`
handler never signs the session out. -/
theorem login_exception_leaves_session :
    envC1exn.authResult = AuthResult.success userC1 ∧
    (handleLogin envC1exn lsEmpty).navigations = [] ∧
    (handleLogin envC1exn lsEmpty).errorMsg = "Falha de rede" ∧
    (handleLogin envC1exn lsEmpty).signedOut = false :=
  ⟨rfl, by decide, by decide, by decide⟩

/-- Claim C5: whenever a status check observes `"approved"` — through
`checkStatus` (scheduled or immediate) or through the resend action's
short-circuit — the poll interval is cancelled (so a subsequent interval
firing performs no further check), and exactly one delayed navigation to the
recorded destination is scheduled, with the fixed 1.5-second delay and
history replacement; the recorded destination defaults to `/dashboard`. -/
theorem poller_approved_stops_and_navigates (env : JSEnv) (did : String)
    (snp : Option String) (d : DeviceStatusResponse) (s : PollerState)
    (happ : d.status = "approved") :
    ((checkStatusStep env (some did) (resolveNextPath snp)
        (CheckOutcome.result (some d) none) s).pollTimer = none ∧
      (checkStatusStep env (some did) (resolveNextPath snp)
        (CheckOutcome.result (some d) none) s).scheduledNavs
          = s.scheduledNavs
              ++ [{ delayMs := 1500, path := resolveNextPath snp, replace := true }] ∧
      ∀ o2, pollTick env (some did) (resolveNextPath snp) o2
          (checkStatusStep env (some did) (resolveNextPath snp)
            (CheckOutcome.result (some d) none) s)
        = checkStatusStep env (some did) (resolveNextPath snp)
            (CheckOutcome.result (some d) none) s) ∧
    ((handleResendStep env (some did) (resolveNextPath snp)
        (CheckOutcome.result (some d) none) s).pollTimer = none ∧
      (handleResendStep env (some did) (resolveNextPath snp)
        (CheckOutcome.result (some d) none) s).scheduledNavs
          = s.scheduledNavs
              ++ [{ delayMs := 1500, path := resolveNextPath snp, replace := true }] ∧
      ∀ o2, pollTick env (some did) (resolveNextPath snp) o2
          (handleResendStep env (some did) (resolveNextPath snp)
            (CheckOutcome.result (some d) none) s)
        = handleResendStep env (some did) (resolveNextPath snp)
            (CheckOutcome.result (some d) none) s) ∧
    (snp = none → resolveNextPath snp = "/dashboard") := by
  have hcheck : checkStatusStep env (some did) (resolveNextPath snp)
      (CheckOutcome.result (some d) none) s
      = { s with status := d.status
                 errorMsg := none
                 info := "Dispositivo confirmado. Redirecionando..."
                 pollTimer := none
                 scheduledNavs := s.scheduledNavs
                   ++ [{ delayMs := 1500, path := resolveNextPath snp, replace := true }] } := by
    simp [checkStatusStep, happ]
  have hresend : handleResendStep env (some did) (resolveNextPath snp)
      (CheckOutcome.result (some d) none) s
      = { s with status := "approved"
                 errorMsg := none
                 info := "Dispositivo confirmado. Redirecionando..."
                 pollTimer := none
                 resendLoading := false
                 scheduledNavs := s.scheduledNavs
                   ++ [{ delayMs := 1500, path := resolveNextPath snp, replace := true }] } := by
    simp [handleResendStep, happ]
  refine ⟨⟨?_, ?_, ?_⟩, ⟨?_, ?_, ?_⟩, ?_⟩
  · rw [hcheck]
  · rw [hcheck]
  · intro o2
    rw [hcheck]
    simp [pollTick]
  · rw [hresend]
  · rw [hresend]
  · intro o2
    rw [hresend]
    simp [pollTick]
  · intro h
    subst h
    rfl

/-- Witness for claim C5 at a concrete pending poller with no recorded
destination: approval cancels the interval and schedules the single delayed
navigation to `/dashboard`. -/
theorem poller_approved_stops_and_navigates_witness :
    (checkStatusStep trivialJsonEnv (some "dev-1") (resolveNextPath none)
        (CheckOutcome.result (some { status := "approved", requiresConfirmation := false }) none)
        pollerStateW).pollTimer = none ∧
    (checkStatusStep trivialJsonEnv (some "dev-1") (resolveNextPath none)
        (CheckOutcome.result (some { status := "approved", requiresConfirmation := false }) none)
        pollerStateW).scheduledNavs
      = pollerStateW.scheduledNavs ++ [{ delayMs := 1500, path := resolveNextPath none, replace := true }] :=
  ⟨((poller_approved_stops_and_navigates trivialJsonEnv "dev-1" none
      { status := "approved", requiresConfirmation := false } pollerStateW rfl).1).1,
   ((poller_approved_stops_and_navigates trivialJsonEnv "dev-1" none
      { status := "approved", requiresConfirmation := false } pollerStateW rfl).1).2.1⟩

/-- Claim C6: a status check failing with a classified rate-limit error only
updates the error message: the displayed status and the poll interval are
unchanged (in particular a pending status stays pending), no navigation is
scheduled, the interval period is the fixed 5000 ms, and while the interval
is still registered the next firing performs a full further check. -/
theorem poller_rateLimit_keeps_polling (env : JSEnv) (did : String) (np : String)
    (data : Option DeviceStatusResponse) (e : FunctionsErrorLike) (rl : RateLimitError)
    (s : PollerState)
    (hrl : toRateLimitError env (some e) = some rl) :
    checkStatusStep env (some did) np (CheckOutcome.result data (some e)) s
        = { s with errorMsg := some (formatRateLimitError rl "Muitas verificações em sequência.") } ∧
    (checkStatusStep env (some did) np (CheckOutcome.result data (some e)) s).status = s.status ∧
    (checkStatusStep env (some did) np (CheckOutcome.result data (some e)) s).pollTimer = s.pollTimer ∧
    (checkStatusStep env (some did) np (CheckOutcome.result data (some e)) s).scheduledNavs = s.scheduledNavs ∧
    POLL_INTERVAL_MS = 5000 ∧
    (s.pollTimer = some POLL_INTERVAL_MS →
      ∀ o2, pollTick env (some did) np o2
          (checkStatusStep env (some did) np (CheckOutcome.result data (some e)) s)
        = checkStatusStep env (some did) np o2
            (checkStatusStep env (some did) np (CheckOutcome.result data (some e)) s)) := by
  have hstep : checkStatusStep env (some did) np (CheckOutcome.result data (some e)) s
      = { s with errorMsg := some (formatRateLimitError rl "Muitas verificações em sequência.") } := by
    simp [checkStatusStep, hrl]
  refine ⟨hstep, by rw [hstep], by rw [hstep], by rw [hstep], rfl, ?_⟩
  intro htimer o2
  rw [hstep]
  simp [pollTick, htimer]

/-- Witness for claim C6 at a concrete pending poller hit by a plain 429:
only the error message changes and the interval remains registered. -/
theorem poller_rateLimit_keeps_polling_witness :
    checkStatusStep trivialJsonEnv (some "dev-1") "/dashboard"
        (CheckOutcome.result none (some errC6)) pollerStateW
      = { pollerStateW with
          errorMsg := some (formatRateLimitError (mkRateLimitError "Aguarde." none)
            "Muitas verificações em sequência.") } ∧
    (checkStatusStep trivialJsonEnv (some "dev-1") "/dashboard"
        (CheckOutcome.result none (some errC6)) pollerStateW).status = pollerStateW.status ∧
    (checkStatusStep trivialJsonEnv (some "dev-1") "/dashboard"
        (CheckOutcome.result none (some errC6)) pollerStateW).pollTimer = pollerStateW.pollTimer :=
  ⟨(poller_rateLimit_keeps_polling trivialJsonEnv "dev-1" "/dashboard" none errC6
      (mkRateLimitError "Aguarde." none) pollerStateW (by decide)).1,
   (poller_rateLimit_keeps_polling trivialJsonEnv "dev-1" "/dashboard" none errC6
      (mkRateLimitError "Aguarde." none) pollerStateW (by decide)).2.1,
   (poller_rateLimit_keeps_polling trivialJsonEnv "dev-1" "/dashboard" none errC6
      (mkRateLimitError "Aguarde." none) pollerStateW (by decide)).2.2.1⟩

/-- Claim C7 (amended): on teardown the poll effect cleanup cancels the
interval, so no further interval firing performs a check, and the
Confirmation Link Handler's `cancelled` flag makes its resolving call a
no-op after teardown; but the Device Verification Poller checks no liveness
flag, so an in-flight status check that resolves after teardown still
applies its state transition. -/
theorem teardown_cancellation (env : JSEnv) (did : Option String) (np : String) :
    (∀ o cs, confirmResolve env true o cs = cs) ∧
    (∀ w, (pollerUnmount w).mounted = false ∧ (pollerUnmount w).state.pollTimer = none) ∧
    (∀ o s, pollTick env did np o (pollEffectCleanup s) = pollEffectCleanup s) ∧
    (∀ o w, (pollerResolveInFlight env did np o w).state
        = checkStatusStep env did np o w.state) := by
  refine ⟨?_, ?_, ?_, ?_⟩
  · intro o cs
    cases o <;> rfl
  · intro w
    exact ⟨rfl, rfl⟩
  · intro o s
    rfl
  · intro o w
    rfl

/-- Counterexample for claim C7 as stated: after the poller's teardown, an
in-flight status check resolving with `"approved"` still mutates the state
— it changes the displayed status and info and schedules the delayed
navigation — because `DeviceVerificationPage` consults no liveness flag. -/
theorem poller_mutates_after_teardown :
    (pollerUnmount worldC7).mounted = false ∧
    (pollerResolveInFlight trivialJsonEnv (some "dev-1") "/dashboard"
        (CheckOutcome.result (some { status := "approved", requiresConfirmation := false }) none)
        (pollerUnmount worldC7)).state ≠ (pollerUnmount worldC7).state ∧
    (pollerResolveInFlight trivialJsonEnv (some "dev-1") "/dashboard"
        (CheckOutcome.result (some { status := "approved", requiresConfirmation := false }) none)
        (pollerUnmount worldC7)).state.scheduledNavs
      = [{ delayMs := 1500, path := "/dashboard", replace := true }] := by decide
